import Mathlib

/-!
Verification of the Dutch-QR attendance core (src/src/utils/attendanceUtils.ts)
against its natural-language specification.

Modelling conventions (shallow embedding):
* JavaScript `Date` values are epoch milliseconds as `Int`; the local timezone
  offset is taken to be zero, so `setHours(h, m, 0, 0)` keeps the calendar day
  `t - t % 86400000` and replaces the time of day.
* `null` timestamp fields are `Option.none`; `new Date(null).getTime()` is `0`
  (modelled by `jsDateTime`), and an Invalid Date (`new Date('')`, i.e. NaN)
  is modelled by `none` propagating through arithmetic.
* `Math.floor` on a millisecond quotient is `Int.fdiv` (floor division).
* Fractional hour results are `ℚ`.
* The Supabase record store, restricted to one employee and one calendar day,
  is a list of rows plus a fresh-id counter (`Store`); `maybeSingle` returns
  an error when more than one row matches, as the client library does.
* Fallible async functions become `Except String` values carrying the exact
  error messages of the source; functions that must leave the store unchanged
  on failure return the store alongside the result.
-/

namespace DutchQR

inductive AttendanceAction where
  | first_check_in
  | first_check_out
  | second_check_in
  | second_check_out
  | completed
  deriving DecidableEq

structure AttendanceRecord where
  id : Nat
  employee_id : String
  roster_id : Nat
  date : String
  first_check_in_time : Option Int
  first_check_out_time : Option Int
  second_check_in_time : Option Int
  second_check_out_time : Option Int
  is_second_session : Bool
  previous_session_id : Option Nat
  status : String
  minutes_late : Option Int
  early_departure_minutes : Int
  break_duration : Int
  expected_hours : ℚ
  last_action : Int
  deriving DecidableEq

structure Roster where
  id : Nat
  startH : Int
  startM : Int
  endH : Int
  endM : Int
  break_duration : Int
  grace_period : Int
  early_departure_threshold : Int
  deriving DecidableEq

structure EmployeeRow where
  first_name : String
  last_name : String
  status : String
  deriving DecidableEq

/-- Milliseconds in one day. -/
def msPerDay : Int := 86400000

/-- Model of `d.setHours(h, m, 0, 0)` applied to a copy of the instant `t`:
same calendar day, time of day replaced by `h:m:00.000`. -/
def setHoursOnDay (t h m : Int) : Int :=
  t - t.emod msPerDay + h * 3600000 + m * 60000

/-- Model of `new Date(x).getTime()` for a nullable stored timestamp:
a null field yields epoch `0`. -/
def jsDateTime (t : Option Int) : Int := t.getD 0

/-- `calculateLateness` from attendanceUtils.ts (lines 459-466): minutes the
current time is past the roster start on the same day, floored, minus the
grace period, floored at 0.  The `HH:MM` roster string arrives pre-split as
`startH`/`startM`. -/
def calculateLateness (currentTime startH startM gracePeriod : Int) : Int :=
  let startTime := setHoursOnDay currentTime startH startM
  let lateMinutes := Int.fdiv (currentTime - startTime) 60000
  max 0 (lateMinutes - gracePeriod)

/-- `calculateEarlyDeparture` (lines 475-482). -/
def calculateEarlyDeparture (currentTime endH endM threshold : Int) : Int :=
  let endTime := setHoursOnDay currentTime endH endM
  let earlyMinutes := Int.fdiv (endTime - currentTime) 60000
  max 0 (earlyMinutes - threshold)

/-- `calculateExpectedHours` (lines 484-490). -/
def calculateExpectedHours (startH startM endH endM breakDuration : Int) : ℚ :=
  let totalMinutes : Int := (endH * 60 + endM) - (startH * 60 + startM) - breakDuration
  max 0 ((totalMinutes : ℚ) / 60)

/-- `calculateActualHours` (lines 492-514).  Note the source adds first-session
minutes only when `first_check_out_time` is set: an open first session
contributes nothing.  An open second session is measured up to `currentTime`. -/
def calculateActualHours (record : AttendanceRecord) (currentTime breakDuration : Int) : ℚ :=
  match record.first_check_in_time with
  | none => 0
  | some firstCheckIn =>
    let m1 : Int :=
      match record.first_check_out_time with
      | some firstCheckOut => Int.fdiv (firstCheckOut - firstCheckIn) 60000
      | none => 0
    let m2 : Int :=
      match record.second_check_in_time with
      | none => 0
      | some secondCheckIn =>
        match record.second_check_out_time with
        | some secondCheckOut => Int.fdiv (secondCheckOut - secondCheckIn) 60000
        | none => Int.fdiv (currentTime - secondCheckIn) 60000
    max 0 (((m1 + m2 - breakDuration : Int) : ℚ) / 60)

/-- The claim's reading of `actualHours` (spec 4.1): each completed session
contributes (checkout − checkin), each open session — including an open first
session — contributes (now − checkin), minus the break, floored at 0.
Written from the spec's words, to be compared with `calculateActualHours`. -/
def actualHoursClaim (record : AttendanceRecord) (currentTime breakDuration : Int) : ℚ :=
  match record.first_check_in_time with
  | none => 0
  | some firstCheckIn =>
    let m1 : Int :=
      match record.first_check_out_time with
      | some firstCheckOut => Int.fdiv (firstCheckOut - firstCheckIn) 60000
      | none => Int.fdiv (currentTime - firstCheckIn) 60000
    let m2 : Int :=
      match record.second_check_in_time with
      | none => 0
      | some secondCheckIn =>
        match record.second_check_out_time with
        | some secondCheckOut => Int.fdiv (secondCheckOut - secondCheckIn) 60000
        | none => Int.fdiv (currentTime - secondCheckIn) 60000
    max 0 (((m1 + m2 - breakDuration : Int) : ℚ) / 60)

/-- First-session minutes as the code counts them: only a closed first session
contributes. -/
def closedFirstSessionMinutes (record : AttendanceRecord) : Int :=
  match record.first_check_in_time, record.first_check_out_time with
  | some a, some b => Int.fdiv (b - a) 60000
  | _, _ => 0

/-- Second-session minutes: closed up to its checkout, open up to `now`. -/
def secondSessionMinutes (record : AttendanceRecord) (now : Int) : Int :=
  match record.second_check_in_time with
  | none => 0
  | some a =>
    match record.second_check_out_time with
    | some b => Int.fdiv (b - a) 60000
    | none => Int.fdiv (now - a) 60000

/-- The amended reading of `actualHours`: closed first session plus second
session (closed, or open measured to `now`), minus the break, in hours,
floored at 0 — an open first session contributes nothing. -/
def actualHoursAmended (record : AttendanceRecord) (now breakDuration : Int) : ℚ :=
  if record.first_check_in_time = none then 0
  else
    max 0 (((closedFirstSessionMinutes record + secondSessionMinutes record now
      - breakDuration : Int) : ℚ) / 60)

inductive EventType where
  | checkIn
  | checkOut
  deriving DecidableEq

/-- The `check_in_time` / `check_out_time` columns of the most recent
attendance row for the employee today, as fetched at the top of each
`generateUniqueTimestamp` probe iteration. -/
structure LastEvent where
  check_in_time : Option Int
  check_out_time : Option Int
  deriving DecidableEq

/-- One iteration's candidate-flooring step of `generateUniqueTimestamp`
(lines 148-166): for a check-out whose base time is within 15 minutes of the
last check-in, the candidate is reset to check-in + 15 min; symmetrically for
a check-in within 15 minutes of the last check-out.  Both comparisons are
against `baseTime`, and a triggered floor discards the carried candidate. -/
def floorCandidate (lastRecord : Option LastEvent) (baseTime : Int) (ty : EventType)
    (uniqueTime : Int) : Int :=
  let u1 : Int :=
    match ty, lastRecord with
    | .checkOut, some lr =>
      match lr.check_in_time with
      | some lastCheckIn =>
        if baseTime < lastCheckIn + 15 * 60 * 1000 then lastCheckIn + 15 * 60 * 1000
        else uniqueTime
      | none => uniqueTime
    | _, _ => uniqueTime
  match ty, lastRecord with
  | .checkIn, some lr =>
    match lr.check_out_time with
    | some lastCheckOut =>
      if baseTime < lastCheckOut + 15 * 60 * 1000 then lastCheckOut + 15 * 60 * 1000
      else u1
    | none => u1
  | _, _ => u1

/-- The `while attempt < 10` probe loop of `generateUniqueTimestamp`
(lines 137-194), with the remaining iterations as fuel.  `collides` is the
store's exact-timestamp collision probe on the relevant column, and like the
source query it has three outcomes: a store error — which aborts the whole
call with the distinct message thrown at lines 183-186 — a row with this
exact timestamp exists (`.ok true`, line 193: try again), or no such row
(`.ok false`, line 190: return the candidate).  The loop re-reads the same
(unchanging) last record each iteration, so it is a fixed parameter;
exhausting the fuel is the `attempt == 10` exit (line 196). -/
def generateUniqueTimestampLoop (lastRecord : Option LastEvent)
    (collides : Int → Except String Bool) (baseTime : Int) (ty : EventType) :
    Nat → Int → Nat → Except String Int
  | 0, _, _ => .error "Unable to generate unique timestamp"
  | fuel + 1, uniqueTime, attempt =>
    let candidate := floorCandidate lastRecord baseTime ty uniqueTime + 1000 * (attempt : Int)
    match collides candidate with
    | .error _ => .error "Failed to generate unique timestamp"
    | .ok true =>
      generateUniqueTimestampLoop lastRecord collides baseTime ty fuel candidate (attempt + 1)
    | .ok false => .ok candidate

/-- `generateUniqueTimestamp` (lines 129-197): up to 10 probe attempts starting
from `baseTime` with attempt counter 0. -/
def generateUniqueTimestamp (lastRecord : Option LastEvent)
    (collides : Int → Except String Bool) (baseTime : Int) (ty : EventType) :
    Except String Int :=
  generateUniqueTimestampLoop lastRecord collides baseTime ty 10 baseTime 0

/-- Today's slice of the `attendance` table for one employee, plus the id the
store would assign to the next inserted row. -/
structure Store where
  records : List AttendanceRecord
  nextId : Nat
  deriving DecidableEq

/-- Supabase `maybeSingle`: `none` for no row, the row when unique, an error
when several rows match the (employee_id, date) filter. -/
def maybeSingle (rows : List AttendanceRecord) : Except String (Option AttendanceRecord) :=
  match rows with
  | [] => .ok none
  | [r] => .ok (some r)
  | _ => .error "JSON object requested, multiple (or no) rows returned"

/-- Supabase `upsert` keyed on `id`: replace the row with a matching id, or
append a fresh row when no id matches (the `id: undefined` insert case). -/
def upsert (s : Store) (row : AttendanceRecord) : Store :=
  if s.records.any (fun r => r.id = row.id) then
    { s with records := s.records.map (fun r => if r.id = row.id then row else r) }
  else
    { records := s.records ++ [row], nextId := s.nextId + 1 }

/-- Supabase `insert`: always appends a fresh row. -/
def insertRow (s : Store) (row : AttendanceRecord) : Store :=
  { records := s.records ++ [row], nextId := s.nextId + 1 }

/-- Next-action derivation inside `recordAttendance` (lines 242-259), together
with the status it selects.  Note the final `else`: it is reached both when
all four timestamps are set and when an existing record has
`first_check_in_time` null. -/
def recorderNextAction (existingRecord : Option AttendanceRecord) :
    Except String (AttendanceAction × String) :=
  match existingRecord with
  | none => .ok (.first_check_in, "CHECKED_IN")
  | some r =>
    if r.first_check_out_time = none ∧ r.first_check_in_time ≠ none then
      .ok (.first_check_out, "ON_BREAK")
    else if r.second_check_in_time = none ∧ r.first_check_out_time ≠ none then
      .ok (.second_check_in, "CHECKED_IN")
    else if r.second_check_out_time = none ∧ r.second_check_in_time ≠ none then
      .ok (.second_check_out, "COMPLETED")
    else
      .error "All attendance actions completed for today"

/-- The check-sequence validation switch of `recordAttendance` (lines 261-279):
the new time must be strictly after the immediately preceding event. -/
def validateSequence (action : AttendanceAction) (r : AttendanceRecord)
    (newTime : Int) : Except String Unit :=
  match action with
  | .first_check_out =>
    if newTime ≤ jsDateTime r.first_check_in_time then
      .error "Check-out time must be after check-in time"
    else .ok ()
  | .second_check_in =>
    if newTime ≤ jsDateTime r.first_check_out_time then
      .error "Second check-in time must be after first check-out time"
    else .ok ()
  | .second_check_out =>
    if newTime ≤ jsDateTime r.second_check_in_time then
      .error "Second check-out time must be after second check-in time"
    else .ok ()
  | _ => .ok ()

/-- Argument of the `calculateLateness` call at line 283: the current time for
a first check-in, otherwise `new Date(existingRecord?.first_check_in_time || '')`
— which is an Invalid Date (`none`) when that field is null. -/
def latenessInput (action : AttendanceAction) (existingRecord : Option AttendanceRecord)
    (currentTime : Int) : Option Int :=
  match action with
  | .first_check_in => some currentTime
  | _ => existingRecord.bind (fun r => r.first_check_in_time)

/-- What a successful `recordAttendance` returns, less the presentation-only
echo fields (isLate, formatted late minutes, echoed hour totals): the
processed row and the action taken. -/
structure RecordedScan where
  row : AttendanceRecord
  action : AttendanceAction
  employeeName : String
  deriving DecidableEq

/-- `recordAttendance` (lines 200-456) over the one-employee/one-day store
slice.  The employee lookup and roster resolution results arrive as
parameters (`getEmployeeRoster` lives outside the recorder).  Every failure
returns the store unchanged, mirroring the source's throw-before-write
structure; the second-check-in branch inserts a fresh row, every other branch
upserts keyed on the existing row's id. -/
def recordAttendance (employeeId : String) (employee : Option EmployeeRow)
    (roster : Option Roster) (store : Store) (currentTime : Int) (today : String) :
    Except String RecordedScan × Store :=
  match employee with
  | none => (.error "Employee not found or invalid employee ID", store)
  | some emp =>
    if emp.status ≠ "active" then
      (.error "Employee is not active in the system", store)
    else
      match roster with
      | none => (.error "No valid roster found for employee", store)
      | some r =>
        match maybeSingle store.records with
        | .error _ => (.error "Failed to check existing attendance", store)
        | .ok existingRecord =>
          match recorderNextAction existingRecord with
          | .error e => (.error e, store)
          | .ok (nextAction, nextStatus) =>
            let seqCheck : Except String Unit :=
              match existingRecord with
              | none => .ok ()
              | some ex => validateSequence nextAction ex currentTime
            match seqCheck with
            | .error e => (.error e, store)
            | .ok _ =>
              let minutesLate : Option Int :=
                (latenessInput nextAction existingRecord currentTime).map
                  (fun t => calculateLateness t r.startH r.startM r.grace_period)
              let earlyDepartureMinutes : Int :=
                if nextAction = .second_check_out then
                  calculateEarlyDeparture currentTime r.endH r.endM r.early_departure_threshold
                else 0
              let expectedHours :=
                calculateExpectedHours r.startH r.startM r.endH r.endM r.break_duration
              let name := emp.first_name ++ " " ++ emp.last_name
              if nextAction = .second_check_in then
                let row : AttendanceRecord :=
                  { id := store.nextId
                    employee_id := employeeId
                    roster_id := r.id
                    date := today
                    first_check_in_time := some currentTime
                    first_check_out_time := none
                    second_check_in_time := none
                    second_check_out_time := none
                    is_second_session := true
                    previous_session_id := existingRecord.map (fun ex => ex.id)
                    status := nextStatus
                    minutes_late := minutesLate
                    early_departure_minutes := earlyDepartureMinutes
                    break_duration := r.break_duration
                    expected_hours := expectedHours
                    last_action := currentTime }
                (.ok { row := row, action := nextAction, employeeName := name },
                  insertRow store row)
              else
                let row : AttendanceRecord :=
                  { id := match existingRecord with
                          | some ex => ex.id
                          | none => store.nextId
                    employee_id := employeeId
                    roster_id := r.id
                    date := today
                    first_check_in_time :=
                      if nextAction = .first_check_in then some currentTime
                      else existingRecord.bind (fun ex => ex.first_check_in_time)
                    first_check_out_time :=
                      if nextAction = .first_check_out then some currentTime
                      else existingRecord.bind (fun ex => ex.first_check_out_time)
                    second_check_in_time :=
                      if nextAction = .second_check_in then some currentTime
                      else existingRecord.bind (fun ex => ex.second_check_in_time)
                    second_check_out_time :=
                      if nextAction = .second_check_out then some currentTime
                      else existingRecord.bind (fun ex => ex.second_check_out_time)
                    is_second_session := false
                    previous_session_id := none
                    status := nextStatus
                    minutes_late := minutesLate
                    early_departure_minutes := earlyDepartureMinutes
                    break_duration := r.break_duration
                    expected_hours := expectedHours
                    last_action := currentTime }
                (.ok { row := row, action := nextAction, employeeName := name },
                  upsert store row)

/-- `getNextAttendanceAction` (lines 1061-1104) as a function of the lookup
outcome: a store error (or a thrown exception, caught at line 1100) yields
`first_check_in`, as does a missing record; otherwise the first null
timestamp field in order decides, with `completed` when none is null. -/
def getNextAttendanceAction (queryResult : Except String (Option AttendanceRecord)) :
    AttendanceAction :=
  match queryResult with
  | .error _ => .first_check_in
  | .ok none => .first_check_in
  | .ok (some record) =>
    if record.first_check_in_time = none then .first_check_in
    else if record.first_check_out_time = none then .first_check_out
    else if record.second_check_in_time = none then .second_check_in
    else if record.second_check_out_time = none then .second_check_out
    else .completed

/-- JavaScript `x > 0` where `x` is a possibly null/NaN `minutes_late` value:
both `null > 0` and `NaN > 0` are false. -/
def jsGtZero (o : Option Int) : Bool :=
  match o with
  | some v => v > 0
  | none => false

/-- JavaScript `x === 0` for the same field: false for null and NaN. -/
def jsEqZero (o : Option Int) : Bool :=
  match o with
  | some v => v = 0
  | none => false

/-- The per-record bucket counters of `getTodayAttendanceSummary`, plus the
derived absent count. -/
structure StatusCounts where
  currentlyPresent : Nat
  lateButPresent : Nat
  checkedOut : Nat
  onTimeArrivals : Nat
  absent : Int
  deriving DecidableEq

/-- The classification body of `getTodayAttendanceSummary` (lines 677-698):
an open first session is tested FIRST (split late/on-time by `minutes_late`),
then an open second session, then any completed-session marker. -/
def classifyRecord (counts : StatusCounts) (record : AttendanceRecord) : StatusCounts :=
  if record.first_check_in_time ≠ none ∧ record.first_check_out_time = none then
    let c := { counts with currentlyPresent := counts.currentlyPresent + 1 }
    if jsGtZero record.minutes_late then
      { c with lateButPresent := c.lateButPresent + 1 }
    else
      { c with onTimeArrivals := c.onTimeArrivals + 1 }
  else if record.second_check_in_time ≠ none ∧ record.second_check_out_time = none then
    { counts with currentlyPresent := counts.currentlyPresent + 1 }
  else if record.second_check_out_time ≠ none ∨
      (record.first_check_out_time ≠ none ∧ record.second_check_in_time = none) then
    let c := { counts with checkedOut := counts.checkedOut + 1 }
    if jsEqZero record.minutes_late then
      { c with onTimeArrivals := c.onTimeArrivals + 1 }
    else c
  else counts

/-- `getTodayAttendanceSummary` (lines 646-754), restricted to the counters the
claims are about: fold the classifier over today's records, then
`absent = max(0, totalEmployees − (currentlyPresent + checkedOut))`. -/
def getTodayAttendanceSummary (totalEmployees : Nat)
    (attendanceData : List AttendanceRecord) : StatusCounts :=
  let counts := attendanceData.foldl classifyRecord ⟨0, 0, 0, 0, 0⟩
  { counts with
    absent := max 0 ((totalEmployees : Int)
      - ((counts.currentlyPresent : Int) + (counts.checkedOut : Int))) }

/-- The claim's stated precedence (spec 4.6): an open SECOND session is tested
first, then an open first session, then completed markers.  Written from the
spec's words, to be compared with `classifyRecord`. -/
def classifyRecordClaim (counts : StatusCounts) (record : AttendanceRecord) : StatusCounts :=
  if record.second_check_in_time ≠ none ∧ record.second_check_out_time = none then
    { counts with currentlyPresent := counts.currentlyPresent + 1 }
  else if record.first_check_in_time ≠ none ∧ record.first_check_out_time = none then
    let c := { counts with currentlyPresent := counts.currentlyPresent + 1 }
    if jsGtZero record.minutes_late then
      { c with lateButPresent := c.lateButPresent + 1 }
    else
      { c with onTimeArrivals := c.onTimeArrivals + 1 }
  else if record.second_check_out_time ≠ none ∨
      (record.first_check_out_time ≠ none ∧ record.second_check_in_time = none) then
    let c := { counts with checkedOut := counts.checkedOut + 1 }
    if jsEqZero record.minutes_late then
      { c with onTimeArrivals := c.onTimeArrivals + 1 }
    else c
  else counts

/-- Summary computed with the claim's precedence. -/
def getTodayAttendanceSummaryClaim (totalEmployees : Nat)
    (attendanceData : List AttendanceRecord) : StatusCounts :=
  let counts := attendanceData.foldl classifyRecordClaim ⟨0, 0, 0, 0, 0⟩
  { counts with
    absent := max 0 ((totalEmployees : Int)
      - ((counts.currentlyPresent : Int) + (counts.checkedOut : Int))) }

/-- The bucket a record falls into under the code's actual precedence. -/
inductive Bucket where
  | firstOpen (late : Bool)
  | secondOpen
  | completedMarker (onTime : Bool)
  | unclassified
  deriving DecidableEq

/-- Which single bucket `classifyRecord` assigns, reading the conditions in
the code's order. -/
def bucketOf (record : AttendanceRecord) : Bucket :=
  if record.first_check_in_time ≠ none ∧ record.first_check_out_time = none then
    .firstOpen (jsGtZero record.minutes_late)
  else if record.second_check_in_time ≠ none ∧ record.second_check_out_time = none then
    .secondOpen
  else if record.second_check_out_time ≠ none ∨
      (record.first_check_out_time ≠ none ∧ record.second_check_in_time = none) then
    .completedMarker (jsEqZero record.minutes_late)
  else .unclassified

/-- Counter increments of one bucket. -/
def applyBucket (counts : StatusCounts) (b : Bucket) : StatusCounts :=
  match b with
  | .firstOpen true =>
    { counts with currentlyPresent := counts.currentlyPresent + 1
                  lateButPresent := counts.lateButPresent + 1 }
  | .firstOpen false =>
    { counts with currentlyPresent := counts.currentlyPresent + 1
                  onTimeArrivals := counts.onTimeArrivals + 1 }
  | .secondOpen =>
    { counts with currentlyPresent := counts.currentlyPresent + 1 }
  | .completedMarker true =>
    { counts with checkedOut := counts.checkedOut + 1
                  onTimeArrivals := counts.onTimeArrivals + 1 }
  | .completedMarker false =>
    { counts with checkedOut := counts.checkedOut + 1 }
  | .unclassified => counts

/-- A record is prefix-shaped when each non-null session timestamp implies the
previous one is non-null — the shape every record reachable through the
recorder's normal flow has. -/
def prefixShaped (r : AttendanceRecord) : Prop :=
  (r.first_check_out_time ≠ none → r.first_check_in_time ≠ none) ∧
  (r.second_check_in_time ≠ none → r.first_check_out_time ≠ none) ∧
  (r.second_check_out_time ≠ none → r.second_check_in_time ≠ none)

instance (r : AttendanceRecord) : Decidable (prefixShaped r) := by
  unfold prefixShaped
  infer_instance

/-- Fixture: an active employee. -/
def empFx : EmployeeRow := ⟨"Ada", "Lovelace", "active"⟩

/-- Fixture: a 09:00-17:00 roster, 60-minute break, 5-minute grace period,
15-minute early-departure threshold. -/
def rosterFx : Roster := ⟨7, 9, 0, 17, 0, 60, 5, 15⟩

/-- Fixture row builder: id, the four session timestamps and the stored
lateness, with neutral bookkeeping fields. -/
def mkRow (id : Nat) (fci fco sci sco : Option Int) (late : Option Int) :
    AttendanceRecord :=
  { id := id
    employee_id := "E1"
    roster_id := 7
    date := "2026-01-01"
    first_check_in_time := fci
    first_check_out_time := fco
    second_check_in_time := sci
    second_check_out_time := sco
    is_second_session := false
    previous_session_id := none
    status := "CHECKED_IN"
    minutes_late := late
    early_departure_minutes := 0
    break_duration := 60
    expected_hours := 7
    last_action := 0 }

/-- Claim C8: for every current time, roster start and grace period,
calculateLateness returns max(0, floor((currentTime − rosterStart on the same
calendar day) in minutes) − gracePeriod); lateness at 09:10 against 09:00 with
5 minutes of grace is 5, at 08:55 it is 0, and the result is never
negative. -/
theorem calculateLateness_spec :
    (∀ t h m g : Int, calculateLateness t h m g =
      max 0 (Int.fdiv (t - setHoursOnDay t h m) 60000 - g)) ∧
    (∀ t h m g : Int, 0 ≤ calculateLateness t h m g) ∧
    calculateLateness (9 * 3600000 + 10 * 60000) 9 0 5 = 5 ∧
    calculateLateness (8 * 3600000 + 55 * 60000) 9 0 5 = 0 := by
  refine ⟨fun t h m g => rfl, fun t h m g => le_max_left 0 _, by decide, by decide⟩

/-- Claim C10: for every store error (and the caught-exception path, which
returns the same value), getNextAttendanceAction answers first_check_in — the
same answer it gives for an employee with no record today, so a database
failure is indistinguishable from a never-scanned employee at this
interface. -/
theorem getNextAttendanceAction_error_fallback :
    (∀ e : String, getNextAttendanceAction (.error e) = .first_check_in) ∧
    getNextAttendanceAction (.ok none) = .first_check_in ∧
    (∀ e : String,
      getNextAttendanceAction (.error e) = getNextAttendanceAction (.ok none)) :=
  ⟨fun _ => rfl, rfl, fun _ => rfl⟩

/-- Claim C2 counterexample input: an open first session (checked in at epoch
0, never checked out), evaluated one hour later with no break. -/
def openFirstRow : AttendanceRecord := mkRow 1 (some 0) none none none (some 0)

/-- Claim C2 is false as stated: for an open first session the code returns 0
hours, while the claim's formula (an open first session counted up to now)
gives 1 hour. -/
theorem calculateActualHours_counterexample :
    calculateActualHours openFirstRow 3600000 0 = 0 ∧
    actualHoursClaim openFirstRow 3600000 0 = 1 ∧
    calculateActualHours openFirstRow 3600000 0 ≠
      actualHoursClaim openFirstRow 3600000 0 := by
  have h1 : calculateActualHours openFirstRow 3600000 0 = 0 := by
    simp [calculateActualHours, openFirstRow, mkRow]
  have h2 : actualHoursClaim openFirstRow 3600000 0 = 1 := by
    simp [actualHoursClaim, openFirstRow, mkRow]
  exact ⟨h1, h2, by rw [h1, h2]; norm_num⟩

/-- Claim C2 amended: calculateActualHours sums the closed first session and
the second session (closed up to its checkout, open up to now), subtracts the
break and floors at 0 — an open first session contributes nothing — and the
result is never negative and counts no closed session twice. -/
theorem calculateActualHours_amended :
    (∀ (r : AttendanceRecord) (now b : Int),
      calculateActualHours r now b = actualHoursAmended r now b) ∧
    (∀ (r : AttendanceRecord) (now b : Int), 0 ≤ calculateActualHours r now b) := by
  constructor
  · intro r now b
    unfold calculateActualHours actualHoursAmended closedFirstSessionMinutes
      secondSessionMinutes
    rcases hfci : r.first_check_in_time with _ | a
    · simp [hfci]
    · rcases hfco : r.first_check_out_time with _ | b1 <;>
        rcases hsci : r.second_check_in_time with _ | c <;>
          rcases hsco : r.second_check_out_time with _ | d <;>
            simp [hfci, hfco, hsci, hsco]
  · intro r now b
    unfold calculateActualHours
    rcases hfci : r.first_check_in_time with _ | a
    · exact le_refl 0
    · exact le_max_left 0 _

/-- Claim C9 counterexample input: a row with both an open first session and an
open second session (first_check_out null but second_check_in set), marked
late. -/
def mixedOpenRow : AttendanceRecord := mkRow 2 (some 1) none (some 2) none (some 10)

/-- Claim C9 is false as stated: getTodayAttendanceSummary tests the open
FIRST session before the open second session, so this late row lands in
lateButPresent, while the claim's precedence (second-session-open first) would
leave lateButPresent at 0. -/
theorem summary_precedence_counterexample :
    (getTodayAttendanceSummary 1 [mixedOpenRow]).lateButPresent = 1 ∧
    (getTodayAttendanceSummaryClaim 1 [mixedOpenRow]).lateButPresent = 0 ∧
    getTodayAttendanceSummary 1 [mixedOpenRow] ≠
      getTodayAttendanceSummaryClaim 1 [mixedOpenRow] := by
  refine ⟨by decide, by decide, by decide⟩

/-- Fixture for the summary example: 3 open first sessions (exactly one late)
and 2 completed records. -/
def summaryExampleRows : List AttendanceRecord :=
  [ mkRow 11 (some 100) none none none (some 7)
  , mkRow 12 (some 100) none none none (some 0)
  , mkRow 13 (some 100) none none none (some 0)
  , mkRow 14 (some 100) (some 200) (some 300) (some 400) (some 0)
  , mkRow 15 (some 100) (some 200) none none (some 0) ]

/-- Claim C9 amended: every record is classified into exactly one bucket under
the code's precedence — first session open (split late/on-time by
minutes_late), then second session open, then any completed-session marker —
absent is max(0, totalEmployees − (present + checkedOut)) and never negative,
and the 10-employee example (3 open first sessions, 1 late, 2 completed)
yields currentlyPresent = 3, lateButPresent = 1, checkedOut = 2, absent = 5. -/
theorem summary_amended :
    (∀ (c : StatusCounts) (r : AttendanceRecord),
      classifyRecord c r = applyBucket c (bucketOf r)) ∧
    (∀ (n : Nat) (data : List AttendanceRecord),
      0 ≤ (getTodayAttendanceSummary n data).absent ∧
      (getTodayAttendanceSummary n data).absent =
        max 0 ((n : Int)
          - (((data.foldl classifyRecord ⟨0, 0, 0, 0, 0⟩).currentlyPresent : Int)
            + ((data.foldl classifyRecord ⟨0, 0, 0, 0, 0⟩).checkedOut : Int)))) ∧
    getTodayAttendanceSummary 10 summaryExampleRows = ⟨3, 1, 2, 4, 5⟩ := by
  refine ⟨?_, ?_, ?_⟩
  · intro c r
    unfold classifyRecord bucketOf applyBucket
    cases hg : jsGtZero r.minutes_late <;> cases he : jsEqZero r.minutes_late <;>
      split_ifs <;> simp_all
  · intro n data
    exact ⟨le_max_left 0 _, rfl⟩
  · decide

/-- A successful probe loop only ever returns a candidate the collision probe
answered `.ok false` (no row with that exact timestamp) for. -/
theorem gutLoop_ok_not_collides (lastRecord : Option LastEvent)
    (collides : Int → Except String Bool) (baseTime : Int) (ty : EventType) :
    ∀ (fuel : Nat) (u : Int) (a : Nat) (t : Int),
      generateUniqueTimestampLoop lastRecord collides baseTime ty fuel u a = .ok t →
      collides t = .ok false := by
  intro fuel
  induction fuel with
  | zero =>
    intro u a t h
    simp [generateUniqueTimestampLoop] at h
  | succ n ih =>
    intro u a t h
    rw [generateUniqueTimestampLoop] at h
    cases hc : collides (floorCandidate lastRecord baseTime ty u + 1000 * (a : Int)) with
    | error e => simp [hc] at h
    | ok b =>
      cases b with
      | true =>
        simp only [hc] at h
        exact ih _ _ _ h
      | false =>
        simp only [hc, Except.ok.injEq] at h
        exact h ▸ hc

/-- With a store-error-free probe, the loop either succeeds or fails with the
fixed give-up message. -/
theorem gutLoop_ok_or_error (lastRecord : Option LastEvent)
    (collides : Int → Except String Bool) (baseTime : Int) (ty : EventType)
    (hprobe : ∀ x, collides x = .ok true ∨ collides x = .ok false) :
    ∀ (fuel : Nat) (u : Int) (a : Nat),
      (∃ t, generateUniqueTimestampLoop lastRecord collides baseTime ty fuel u a = .ok t) ∨
      generateUniqueTimestampLoop lastRecord collides baseTime ty fuel u a =
        .error "Unable to generate unique timestamp" := by
  intro fuel
  induction fuel with
  | zero => intro u a; exact Or.inr rfl
  | succ n ih =>
    intro u a
    rw [generateUniqueTimestampLoop]
    rcases hprobe (floorCandidate lastRecord baseTime ty u + 1000 * (a : Int)) with hc | hc
    · simp only [hc]
      exact ih _ _
    · simp only [hc]
      exact Or.inl ⟨_, rfl⟩

/-- When every probe answers that the candidate collides, the loop exhausts
its fuel and gives up. -/
theorem gutLoop_all_collide (lastRecord : Option LastEvent) (baseTime : Int)
    (ty : EventType) :
    ∀ (fuel : Nat) (u : Int) (a : Nat),
      generateUniqueTimestampLoop lastRecord (fun _ => .ok true) baseTime ty fuel u a =
        .error "Unable to generate unique timestamp" := by
  intro fuel
  induction fuel with
  | zero => intro u a; rfl
  | succ n ih =>
    intro u a
    exact ih _ _

/-- For a check-out probe with a known check-in, every candidate the loop can
return is at least check-in + 15 minutes, provided the carried candidate is at
least the base time (which holds initially). -/
theorem gutLoop_checkOut_floor (co : Option Int) (collides : Int → Except String Bool)
    (baseTime ci : Int) :
    ∀ (fuel : Nat) (u : Int) (a : Nat) (t : Int), baseTime ≤ u →
      generateUniqueTimestampLoop (some ⟨some ci, co⟩) collides baseTime .checkOut fuel u a =
        .ok t →
      ci + 15 * 60 * 1000 ≤ t := by
  intro fuel
  induction fuel with
  | zero =>
    intro u a t _ h
    simp [generateUniqueTimestampLoop] at h
  | succ n ih =>
    intro u a t hu h
    rw [generateUniqueTimestampLoop] at h
    have hfloor : floorCandidate (some ⟨some ci, co⟩) baseTime .checkOut u =
        if baseTime < ci + 15 * 60 * 1000 then ci + 15 * 60 * 1000 else u := rfl
    have hcand : ci + 15 * 60 * 1000 ≤
        floorCandidate (some ⟨some ci, co⟩) baseTime .checkOut u + 1000 * (a : Int) := by
      rw [hfloor]
      by_cases hb : baseTime < ci + 15 * 60 * 1000
      · rw [if_pos hb]; omega
      · rw [if_neg hb]; omega
    have hbase : baseTime ≤
        floorCandidate (some ⟨some ci, co⟩) baseTime .checkOut u + 1000 * (a : Int) := by
      rw [hfloor]
      by_cases hb : baseTime < ci + 15 * 60 * 1000
      · rw [if_pos hb]; omega
      · rw [if_neg hb]; omega
    cases hc : collides (floorCandidate (some ⟨some ci, co⟩) baseTime .checkOut u
        + 1000 * (a : Int)) with
    | error e => simp [hc] at h
    | ok b =>
      cases b with
      | true =>
        simp only [hc] at h
        exact ih _ _ _ hbase h
      | false =>
        simp only [hc, Except.ok.injEq] at h
        omega

/-- Claim C5 counterexample: a store error during the very first collision
probe makes generateUniqueTimestamp fail with the distinct message thrown at
lines 183-186 — a third outcome outside the claim's
return-or-TimestampGenerationFailed dichotomy, reached before any of the 10
attempts is exhausted. -/
theorem generateUniqueTimestamp_probe_error_counterexample :
    generateUniqueTimestamp (some ⟨some 0, none⟩) (fun _ => .error "connection lost")
        0 .checkOut = .error "Failed to generate unique timestamp" ∧
    ("Failed to generate unique timestamp" : String) ≠
      "Unable to generate unique timestamp" :=
  ⟨rfl, by decide⟩

/-- Claim C5 amended: generateUniqueTimestamp called for a check-out when a
check-in exists for the employee today only ever returns a timestamp at least
check-in + 15 minutes; whenever the collision probe answers without a store
error, it either returns, within its 10 probe attempts, a timestamp the
probe found no collision for, or fails with the error message reserved for
exhausting the 10 attempts — which is what happens whenever every probe
answers true; but a store error during a probe instead aborts the call with
the distinct message thrown at lines 183-186. -/
theorem generateUniqueTimestamp_spec :
    (∀ (ci : Int) (co : Option Int) (collides : Int → Except String Bool) (base t : Int),
      generateUniqueTimestamp (some ⟨some ci, co⟩) collides base .checkOut = .ok t →
      ci + 15 * 60 * 1000 ≤ t) ∧
    (∀ (lastRecord : Option LastEvent) (collides : Int → Except String Bool)
        (base : Int) (ty : EventType) (t : Int),
      generateUniqueTimestamp lastRecord collides base ty = .ok t →
      collides t = .ok false) ∧
    (∀ (lastRecord : Option LastEvent) (collides : Int → Except String Bool)
        (base : Int) (ty : EventType),
      (∀ x, collides x = .ok true ∨ collides x = .ok false) →
      (∃ t, generateUniqueTimestamp lastRecord collides base ty = .ok t ∧
        collides t = .ok false) ∨
      generateUniqueTimestamp lastRecord collides base ty =
        .error "Unable to generate unique timestamp") ∧
    (∀ (lastRecord : Option LastEvent) (base : Int) (ty : EventType),
      generateUniqueTimestamp lastRecord (fun _ => .ok true) base ty =
        .error "Unable to generate unique timestamp") ∧
    (∀ (lastRecord : Option LastEvent) (base : Int) (ty : EventType) (e : String),
      generateUniqueTimestamp lastRecord (fun _ => .error e) base ty =
        .error "Failed to generate unique timestamp") := by
  refine ⟨?_, ?_, ?_, ?_, ?_⟩
  · intro ci co collides base t h
    exact gutLoop_checkOut_floor co collides base ci 10 base 0 t le_rfl h
  · intro lastRecord collides base ty t h
    exact gutLoop_ok_not_collides lastRecord collides base ty 10 base 0 t h
  · intro lastRecord collides base ty hprobe
    rcases gutLoop_ok_or_error lastRecord collides base ty hprobe 10 base 0 with
      ⟨t, ht⟩ | herr
    · exact Or.inl ⟨t, ht, gutLoop_ok_not_collides lastRecord collides base ty 10 base 0 t ht⟩
    · exact Or.inr herr
  · intro lastRecord base ty
    exact gutLoop_all_collide lastRecord base ty 10 base 0
  · intro lastRecord base ty e
    rfl

/-- Witness for claim C5 at a concrete input: with a check-in at epoch 0, a
base time of 0 and a collision-free, error-free store, the guard returns
exactly check-in + 15 minutes, and the theorem's floor bound applies to it. -/
theorem generateUniqueTimestamp_spec_witness :
    (generateUniqueTimestamp (some ⟨some 0, none⟩) (fun _ => .ok false) 0 .checkOut =
      .ok 900000) ∧
    (0 : Int) + 15 * 60 * 1000 ≤ 900000 := by
  constructor
  · rfl
  · exact generateUniqueTimestamp_spec.1 0 none (fun _ => .ok false) 0 900000 rfl

/-- Claim C3 counterexample input: an existing record with all four session
timestamps null. -/
def allNullRow : AttendanceRecord := mkRow 3 none none none none none

/-- Claim C3 is false as stated: for an existing record with all four
timestamp fields null, the recorder's derivation does not yield
first_check_in — it fails with the terminal AttendanceAlreadyComplete error,
even though getNextAttendanceAction answers first_check_in for the very same
record. -/
theorem nextAction_all_null_counterexample :
    recorderNextAction (some allNullRow) =
      .error "All attendance actions completed for today" ∧
    getNextAttendanceAction (.ok (some allNullRow)) = .first_check_in := by
  refine ⟨rfl, rfl⟩

/-- Claim C3 amended: a missing record yields first_check_in; on prefix-shaped
records with a first check-in the recorder's derivation follows the strict
null-field order and agrees with getNextAttendanceAction, failing with the
AttendanceAlreadyComplete error exactly when all four timestamps are set
(where getNextAttendanceAction answers completed); but an existing record
with ALL four fields null also hits the recorder's terminal error branch,
while getNextAttendanceAction answers first_check_in for it. -/
theorem nextAction_null_order :
    recorderNextAction none = .ok (.first_check_in, "CHECKED_IN") ∧
    getNextAttendanceAction (.ok none) = .first_check_in ∧
    (∀ r : AttendanceRecord, prefixShaped r → r.first_check_in_time ≠ none →
      r.second_check_out_time = none →
      (recorderNextAction (some r)).map Prod.fst =
        .ok (getNextAttendanceAction (.ok (some r))) ∧
      getNextAttendanceAction (.ok (some r)) ≠ .completed) ∧
    (∀ r : AttendanceRecord, prefixShaped r → r.second_check_out_time ≠ none →
      recorderNextAction (some r) =
        .error "All attendance actions completed for today" ∧
      getNextAttendanceAction (.ok (some r)) = .completed) ∧
    (∀ r : AttendanceRecord, r.first_check_in_time = none →
      r.first_check_out_time = none → r.second_check_in_time = none →
      r.second_check_out_time = none →
      recorderNextAction (some r) =
        .error "All attendance actions completed for today" ∧
      getNextAttendanceAction (.ok (some r)) = .first_check_in) := by
  refine ⟨rfl, rfl, ?_, ?_, ?_⟩
  · intro r hpre hfci hsco
    rcases hfco : r.first_check_out_time with _ | b
    · simp [recorderNextAction, getNextAttendanceAction, Except.map, hfci, hfco]
    · rcases hsci : r.second_check_in_time with _ | c
      · simp [recorderNextAction, getNextAttendanceAction, Except.map, hfci, hfco, hsci]
      · simp [recorderNextAction, getNextAttendanceAction, Except.map, hfci, hfco, hsci, hsco]
  · intro r hpre hsco
    have hsci : r.second_check_in_time ≠ none := hpre.2.2 hsco
    have hfco : r.first_check_out_time ≠ none := hpre.2.1 hsci
    have hfci : r.first_check_in_time ≠ none := hpre.1 hfco
    constructor
    · simp [recorderNextAction, hfco, hsci, hsco]
    · simp [getNextAttendanceAction, hfci, hfco, hsci, hsco]
  · intro r hfci hfco hsci hsco
    constructor
    · simp [recorderNextAction, hfci, hfco, hsci, hsco]
    · simp [getNextAttendanceAction, hfci]

/-- Witness for claim C3's amended theorem at a concrete record: a record with
only the first check-in set is prefix-shaped, and the recorder's derivation
agrees with getNextAttendanceAction on it (both say first_check_out). -/
theorem nextAction_null_order_witness :
    prefixShaped (mkRow 4 (some 5) none none none (some 0)) ∧
    (recorderNextAction (some (mkRow 4 (some 5) none none none (some 0)))).map Prod.fst =
      .ok (getNextAttendanceAction (.ok (some (mkRow 4 (some 5) none none none (some 0))))) :=
  ⟨by decide,
    (nextAction_null_order.2.2.1 (mkRow 4 (some 5) none none none (some 0))
      (by decide) (by decide) rfl).1⟩

/-- Claim C4: for every transition other than first_check_in, a scan whose
time is not strictly after the immediately preceding event's timestamp for
the record fails with the corresponding check-sequence message and performs
zero writes — recordAttendance returns the store unchanged. -/
theorem recordAttendance_sequence_guard (emp : EmployeeRow) (roster : Roster)
    (rec : AttendanceRecord) (n : Nat) (now : Int) (eid today : String)
    (hactive : emp.status = "active") :
    (rec.first_check_in_time ≠ none → rec.first_check_out_time = none →
      now ≤ jsDateTime rec.first_check_in_time →
      recordAttendance eid (some emp) (some roster) ⟨[rec], n⟩ now today =
        (.error "Check-out time must be after check-in time", ⟨[rec], n⟩)) ∧
    (rec.first_check_out_time ≠ none → rec.second_check_in_time = none →
      now ≤ jsDateTime rec.first_check_out_time →
      recordAttendance eid (some emp) (some roster) ⟨[rec], n⟩ now today =
        (.error "Second check-in time must be after first check-out time",
          ⟨[rec], n⟩)) ∧
    (rec.first_check_out_time ≠ none → rec.second_check_in_time ≠ none →
      rec.second_check_out_time = none →
      now ≤ jsDateTime rec.second_check_in_time →
      recordAttendance eid (some emp) (some roster) ⟨[rec], n⟩ now today =
        (.error "Second check-out time must be after second check-in time",
          ⟨[rec], n⟩)) := by
  refine ⟨?_, ?_, ?_⟩
  · intro h1 h2 h3
    simp [recordAttendance, maybeSingle, recorderNextAction, validateSequence,
      hactive, h1, h2, h3]
  · intro h1 h2 h3
    simp [recordAttendance, maybeSingle, recorderNextAction, validateSequence,
      hactive, h1, h2, h3]
  · intro h1 h2 h3 h4
    simp [recordAttendance, maybeSingle, recorderNextAction, validateSequence,
      hactive, h1, h2, h3, h4]

/-- Fixture for the C4 witness: first check-in at 100 ms, nothing else. -/
def seqGuardRow : AttendanceRecord := mkRow 1 (some 100) none none none (some 0)

/-- Witness for claim C4 at a concrete input: a check-out scan at time 50,
before the 100 ms check-in, fails with the check-sequence message and leaves
the single stored row untouched. -/
theorem recordAttendance_sequence_guard_witness :
    seqGuardRow.first_check_in_time ≠ none ∧
    (50 : Int) ≤ jsDateTime seqGuardRow.first_check_in_time ∧
    recordAttendance "E1" (some empFx) (some rosterFx) ⟨[seqGuardRow], 2⟩ 50
        "2026-01-01" =
      (.error "Check-out time must be after check-in time", ⟨[seqGuardRow], 2⟩) :=
  ⟨by decide, by decide,
    (recordAttendance_sequence_guard empFx rosterFx seqGuardRow 2 50 "E1"
      "2026-01-01" rfl).1 (by decide) rfl (by decide)⟩

/-- Claim C6: a second_check_in transition inserts a NEW row — fresh id,
is_second_session true, previous_session_id pointing at the prior row, the
prior row kept unchanged — whereas the first_check_out and second_check_out
transitions write the existing row in place (same id, is_second_session
false, previous_session_id null, the stored row being exactly the written
one), and a first_check_in (for which no existing record can be present on
that branch) creates the day's row with is_second_session false and
previous_session_id null. -/
theorem recordAttendance_write_shape (emp : EmployeeRow) (roster : Roster)
    (rec : AttendanceRecord) (n : Nat) (now : Int) (eid today : String)
    (hactive : emp.status = "active") :
    (rec.first_check_out_time ≠ none → rec.second_check_in_time = none →
      jsDateTime rec.first_check_out_time < now →
      ((recordAttendance eid (some emp) (some roster) ⟨[rec], n⟩ now today).1.map
        (fun o => (o.action, o.row.id, o.row.is_second_session,
          o.row.previous_session_id)) =
        .ok (.second_check_in, n, true, some rec.id)) ∧
      ((recordAttendance eid (some emp) (some roster) ⟨[rec], n⟩ now today).2.records.map
        (fun r => r.id) = [rec.id, n]) ∧
      ((recordAttendance eid (some emp) (some roster) ⟨[rec], n⟩ now today).2.records.head? =
        some rec)) ∧
    (rec.first_check_in_time ≠ none → rec.first_check_out_time = none →
      jsDateTime rec.first_check_in_time < now →
      ((recordAttendance eid (some emp) (some roster) ⟨[rec], n⟩ now today).1.map
        (fun o => (o.action, o.row.id, o.row.is_second_session,
          o.row.previous_session_id)) =
        .ok (.first_check_out, rec.id, false, none)) ∧
      ((recordAttendance eid (some emp) (some roster) ⟨[rec], n⟩ now today).2.records.map
        (fun r => r.id) = [rec.id]) ∧
      ((recordAttendance eid (some emp) (some roster) ⟨[rec], n⟩ now today).2.records.head? =
        (recordAttendance eid (some emp) (some roster) ⟨[rec], n⟩ now today).1.toOption.map
          (fun o => o.row))) ∧
    (rec.first_check_out_time ≠ none → rec.second_check_in_time ≠ none →
      rec.second_check_out_time = none →
      jsDateTime rec.second_check_in_time < now →
      ((recordAttendance eid (some emp) (some roster) ⟨[rec], n⟩ now today).1.map
        (fun o => (o.action, o.row.id, o.row.is_second_session,
          o.row.previous_session_id)) =
        .ok (.second_check_out, rec.id, false, none)) ∧
      ((recordAttendance eid (some emp) (some roster) ⟨[rec], n⟩ now today).2.records.map
        (fun r => r.id) = [rec.id])) ∧
    (((recordAttendance eid (some emp) (some roster) ⟨[], n⟩ now today).1.map
        (fun o => (o.action, o.row.id, o.row.is_second_session,
          o.row.previous_session_id)) =
        .ok (.first_check_in, n, false, none)) ∧
      ((recordAttendance eid (some emp) (some roster) ⟨[], n⟩ now today).2.records.map
        (fun r => r.id) = [n])) := by
  refine ⟨?_, ?_, ?_, ?_⟩
  · intro h1 h2 h3
    have h3' : ¬ now ≤ jsDateTime rec.first_check_out_time := not_le.mpr h3
    refine ⟨?_, ?_, ?_⟩ <;>
      simp [recordAttendance, maybeSingle, recorderNextAction, validateSequence,
        insertRow, upsert, Except.map, hactive, h1, h2, h3']
  · intro h1 h2 h3
    have h3' : ¬ now ≤ jsDateTime rec.first_check_in_time := not_le.mpr h3
    refine ⟨?_, ?_, ?_⟩ <;>
      simp [recordAttendance, maybeSingle, recorderNextAction, validateSequence,
        insertRow, upsert, Except.map, Except.toOption, hactive, h1, h2, h3']
  · intro h1 h2 h3 h4
    have h4' : ¬ now ≤ jsDateTime rec.second_check_in_time := not_le.mpr h4
    refine ⟨?_, ?_⟩ <;>
      simp [recordAttendance, maybeSingle, recorderNextAction, validateSequence,
        insertRow, upsert, Except.map, hactive, h1, h2, h3, h4']
  · refine ⟨?_, ?_⟩ <;>
      simp [recordAttendance, maybeSingle, recorderNextAction, validateSequence,
        insertRow, upsert, Except.map, hactive]

/-- Fixture for the C6 witness: a row whose first session is closed
(check-in at 0, check-out at 1000). -/
def closedFirstRow : AttendanceRecord := mkRow 1 (some 0) (some 1000) none none (some 0)

/-- Witness for claim C6 at a concrete input: scanning at time 2000000 on a
closed first session performs a second_check_in that inserts a fresh row
(id 2) flagged is_second_session with previous_session_id 1, keeping the
prior row. -/
theorem recordAttendance_write_shape_witness :
    closedFirstRow.first_check_out_time ≠ none ∧
    jsDateTime closedFirstRow.first_check_out_time < 2000000 ∧
    ((recordAttendance "E1" (some empFx) (some rosterFx) ⟨[closedFirstRow], 2⟩
        2000000 "2026-01-01").1.map
      (fun o => (o.action, o.row.id, o.row.is_second_session,
        o.row.previous_session_id)) =
      .ok (.second_check_in, 2, true, some 1)) :=
  ⟨by decide, by decide,
    ((recordAttendance_write_shape empFx rosterFx closedFirstRow 2 2000000 "E1"
      "2026-01-01" rfl).1 (by decide) rfl (by decide)).1⟩

/-- Claim C7 counterexample input: the same closed-first-session shape, with
the break taken at hour 1 and the scan at hour 2. -/
def breakRow : AttendanceRecord := mkRow 1 (some 0) (some 3600000) none none (some 0)

/-- Claim C7 is false as stated: the successful second_check_in scan at hour 2
writes a row whose first_check_out_time is null, although the existing record
had it non-null (hour 1) — the non-null field is not carried over into the
written row. -/
theorem recordAttendance_carryover_counterexample :
    ((recordAttendance "E1" (some empFx) (some rosterFx) ⟨[breakRow], 2⟩ 7200000
        "2026-01-01").1.map
      (fun o => (o.action, o.row.first_check_out_time)) =
      .ok (.second_check_in, none)) ∧
    breakRow.first_check_out_time = some 3600000 :=
  ⟨rfl, rfl⟩

/-- Claim C7 amended: every successful call writes a row with exactly one
newly populated timestamp field; the in-place transitions (first_check_in,
first_check_out, second_check_out) carry every other timestamp field of the
existing record over unchanged, while a second_check_in instead inserts a
fresh row whose only timestamp is its first_check_in_time (set to the scan
time), carrying none of the prior row's timestamps — the prior row itself
staying unchanged in the store. -/
theorem recordAttendance_field_advance (emp : EmployeeRow) (roster : Roster)
    (rec : AttendanceRecord) (n : Nat) (now : Int) (eid today : String)
    (hactive : emp.status = "active") :
    (((recordAttendance eid (some emp) (some roster) ⟨[], n⟩ now today).1.map
      (fun o => (o.row.first_check_in_time, o.row.first_check_out_time,
        o.row.second_check_in_time, o.row.second_check_out_time)) =
      .ok (some now, none, none, none)) ∧
    (rec.first_check_in_time ≠ none → rec.first_check_out_time = none →
      jsDateTime rec.first_check_in_time < now →
      (recordAttendance eid (some emp) (some roster) ⟨[rec], n⟩ now today).1.map
        (fun o => (o.row.first_check_in_time, o.row.first_check_out_time,
          o.row.second_check_in_time, o.row.second_check_out_time)) =
        .ok (rec.first_check_in_time, some now, rec.second_check_in_time,
          rec.second_check_out_time)) ∧
    (rec.first_check_out_time ≠ none → rec.second_check_in_time ≠ none →
      rec.second_check_out_time = none →
      jsDateTime rec.second_check_in_time < now →
      (recordAttendance eid (some emp) (some roster) ⟨[rec], n⟩ now today).1.map
        (fun o => (o.row.first_check_in_time, o.row.first_check_out_time,
          o.row.second_check_in_time, o.row.second_check_out_time)) =
        .ok (rec.first_check_in_time, rec.first_check_out_time,
          rec.second_check_in_time, some now)) ∧
    (rec.first_check_out_time ≠ none → rec.second_check_in_time = none →
      jsDateTime rec.first_check_out_time < now →
      ((recordAttendance eid (some emp) (some roster) ⟨[rec], n⟩ now today).1.map
        (fun o => (o.row.first_check_in_time, o.row.first_check_out_time,
          o.row.second_check_in_time, o.row.second_check_out_time)) =
        .ok (some now, none, none, none)) ∧
      (recordAttendance eid (some emp) (some roster) ⟨[rec], n⟩ now today).2.records.head? =
        some rec)) := by
  refine ⟨?_, ?_, ?_, ?_⟩
  · simp [recordAttendance, maybeSingle, recorderNextAction, validateSequence,
      insertRow, upsert, Except.map, hactive]
  · intro h1 h2 h3
    have h3' : ¬ now ≤ jsDateTime rec.first_check_in_time := not_le.mpr h3
    simp [recordAttendance, maybeSingle, recorderNextAction, validateSequence,
      insertRow, upsert, Except.map, hactive, h1, h2, h3']
  · intro h1 h2 h3 h4
    have h4' : ¬ now ≤ jsDateTime rec.second_check_in_time := not_le.mpr h4
    simp [recordAttendance, maybeSingle, recorderNextAction, validateSequence,
      insertRow, upsert, Except.map, hactive, h1, h2, h3, h4']
  · intro h1 h2 h3
    have h3' : ¬ now ≤ jsDateTime rec.first_check_out_time := not_le.mpr h3
    refine ⟨?_, ?_⟩ <;>
      simp [recordAttendance, maybeSingle, recorderNextAction, validateSequence,
        insertRow, upsert, Except.map, hactive, h1, h2, h3']

/-- Witness for claim C7's amended theorem at a concrete input: a
first_check_out at time 500 on a record checked in at 0 carries the check-in
over and populates only first_check_out_time. -/
theorem recordAttendance_field_advance_witness :
    (mkRow 1 (some 0) none none none (some 0)).first_check_in_time ≠ none ∧
    ((recordAttendance "E1" (some empFx) (some rosterFx)
        ⟨[mkRow 1 (some 0) none none none (some 0)], 2⟩ 500 "2026-01-01").1.map
      (fun o => (o.row.first_check_in_time, o.row.first_check_out_time,
        o.row.second_check_in_time, o.row.second_check_out_time)) =
      .ok (some 0, some 500, none, none)) :=
  ⟨by decide,
    (recordAttendance_field_advance empFx rosterFx
      (mkRow 1 (some 0) none none none (some 0)) 2 500 "E1" "2026-01-01" rfl).2.1
      (by decide) rfl (by decide)⟩

/-- Fixture for claim C1: one open first session checked in at epoch 0. -/
def doubleScanRow : AttendanceRecord := mkRow 1 (some 0) none none none (some 0)

/-- Claim C1 fails on the code: recordAttendance persists the raw scan time
(it never calls generateUniqueTimestamp), so two check-out scans read from the
same state 500 ms apart store timestamps 500 ms apart — less than the 1 second
the Uniqueness Guard is supposed to enforce. -/
theorem recordAttendance_raw_time_persisted :
    ((recordAttendance "E1" (some empFx) (some rosterFx) ⟨[doubleScanRow], 2⟩
        1000000 "2026-01-01").1.map (fun o => o.row.first_check_out_time) =
      .ok (some 1000000)) ∧
    ((recordAttendance "E1" (some empFx) (some rosterFx) ⟨[doubleScanRow], 2⟩
        1000500 "2026-01-01").1.map (fun o => o.row.first_check_out_time) =
      .ok (some 1000500)) ∧
    (1000500 - 1000000 : Int) < 1000 :=
  ⟨rfl, rfl, by decide⟩

end DutchQR
